import Mathlib

/-!
Shallow embedding of the `update-route53-host-records` lambda
(files `helpers.py`, `ec2_helpers.py`, `route53_helpers.py`).

Python dict values that may be either a string (from a tag `Value`) or a
list (from a tag `Values`) are modelled by `TagVal`.  Fallible Python code
(uncaught exceptions) is modelled with `Except String`.  The boto3 clients
are modelled as records of the responses the code reads from them.
-/

namespace R53DDNS

/-- Helper for `pySplit`: splits a character list at every occurrence of
the separator, keeping empty pieces, like the Python `str.split` method
with an explicit separator. -/
def splitCharsAux (sep : Char) : List Char → List Char → List (List Char)
  | [], acc => [acc.reverse]
  | c :: cs, acc =>
    if c = sep then acc.reverse :: splitCharsAux sep cs []
    else splitCharsAux sep cs (c :: acc)

/-- Python `s.split(sep)` for a one-character separator (the code only
splits on "." and ","). In particular the empty string splits to `[""]`,
never to `[]`. -/
def pySplit (sep : Char) (s : String) : List String :=
  (splitCharsAux sep s.data []).map (fun l => String.mk l)

/-- Python `sep.join(pieces)`. -/
def pyJoin (sep : String) : List String → String
  | [] => ""
  | [x] => x
  | x :: xs => x ++ sep ++ pyJoin sep xs

/-- Whitespace characters removed by Python `str.strip()`. -/
def isPySpace (c : Char) : Bool :=
  c = ' ' ∨ c = '\t' ∨ c = '\n' ∨ c = '\r'

/-- Python `s.strip()`: leading and trailing whitespace removed. -/
def pyStrip (s : String) : String :=
  String.mk (((s.data.dropWhile isPySpace).reverse.dropWhile isPySpace).reverse)

/-- A Python value stored in a tag dictionary: either a string (from the
`Value` field of a tag entry) or a list of strings (from the `Values`
field). -/
inductive TagVal where
  | str (s : String)
  | list (l : List String)
  deriving DecidableEq, Repr

/-- Python `str()` coercion used when a value is interpolated into a format
string.  For lists this is an abstraction of the Python list repr (the exact
repr text is never load-bearing in the code we verify). -/
def TagVal.fmt : TagVal → String
  | .str s => s
  | .list l => "[" ++ pyJoin ", " l ++ "]"

/-- Whether a `TagVal` is a string. -/
def TagVal.isStrVal : TagVal → Bool
  | .str _ => true
  | .list _ => false

/-- A Python dict with string keys, in insertion order (Python 3.7+ dicts
preserve insertion order, which the code relies on when iterating). -/
abbrev Dict (α : Type) : Type := List (String × α)

/-- `d.get(k, None)` on a Python dict. -/
def dictGet {α : Type} (d : Dict α) (k : String) : Option α :=
  (List.find? (fun p => p.1 = k) d).map (fun p => p.2)

/-- `d[k] = v` on a Python dict: overwrite in place if the key exists,
else append. -/
def dictSet {α : Type} (d : Dict α) (k : String) (v : α) : Dict α :=
  if List.any d (fun p => p.1 = k) then
    List.map (fun p => if p.1 = k then (k, v) else p) d
  else
    d ++ [(k, v)]

/-- One raw entry of a tag list, as returned by the cloud API: the fields
`Key`, `Value` and `Values` may each be absent (`none`). -/
structure TagEntry where
  key : Option String
  value : Option String
  values : Option (List String)
  deriving DecidableEq, Repr

/-- `t.get("Values", t.get("Value", None))` from `helpers.py`
(`tags_to_dict`, line 111): the `Values` list wins over `Value`. -/
def entryVal (t : TagEntry) : Option TagVal :=
  match t.values with
  | some l => some (.list l)
  | none => (t.value).map .str

/-- One iteration of the `for t in tags` loop of `tags_to_dict`
(helpers.py lines 107-114): skip the entry when `Key` is missing or when
both `Value` and `Values` are missing, else store it. -/
def tagsStep (acc : Dict TagVal) (t : TagEntry) : Dict TagVal :=
  match t.key with
  | none => acc
  | some k =>
    match entryVal t with
    | none => acc
    | some v => dictSet acc k v

/-- `helpers.tags_to_dict` (helpers.py lines 95-115): entries missing
`Key`, or missing both `Value` and `Values`, are dropped; the rest are
stored in a dict in order. -/
def tags_to_dict (ts : List TagEntry) : Dict TagVal :=
  List.foldl tagsStep [] ts

/-- Environment-variable lookup (`os.environ.get`). -/
abbrev Env : Type := String → Option String

/-- The `defaults` table of `helpers.py` (lines 11-56): setting name to
`(env_var, default)`. -/
def settingDefaults (s : String) : Option (String × String) :=
  if s = "dynamo_table_name" then
    some ("DYNAMO_TABLE_NAME", "update-route53-host-records")
  else if s = "account_state_tag" then
    some ("ACCOUNT_STATE_TAG", "fn.aws.joshhogle.com/update-route53-host-records/account/state")
  else if s = "account_enabled_values" then
    some ("ACCOUNT_ENABLED_VALUES", "enabled")
  else if s = "iam_role_tag" then
    some ("IAM_ROLE_TAG", "fn.aws.joshhogle.com/update-route53-host-records/iam/role")
  else if s = "default_iam_role" then
    some ("DEFAULT_IAM_ROLE", "STS-UpdateRoute53HostRecords")
  else if s = "hostname_tag_name_account_tag" then
    some ("HOSTNAME_TAG_NAME_ACCOUNT_TAG", "fn.aws.joshhogle.com/update-route53-host-records/tags/hostname")
  else if s = "default_hostname_tag_name" then
    some ("DEFAULT_HOSTNAME_TAG_NAME", "fn.aws.joshhogle.com/update-route53-host-records/hostname")
  else if s = "dns_domain_tag_name_account_tag" then
    some ("DNS_DOMAIN_TAG_NAME_ACCOUNT_TAG", "fn.aws.joshhogle.com/update-route53-host-records/tags/dns_domain")
  else if s = "default_dns_domain_tag_name" then
    some ("DEFAULT_DNS_DOMAIN_TAG_NAME", "fn.aws.joshhogle.com/update-route53-host-records/dns_domain")
  else if s = "aliases_tag_name_account_tag" then
    some ("ALIASES_TAG_NAME_ACCOUNT_TAG", "fn.aws.joshhogle.com/update-route53-host-records/tags/aliases")
  else if s = "default_aliases_tag_name" then
    some ("DEFAULT_ALIASES_TAG_NAME", "fn.aws.joshhogle.com/update-route53-host-records/aliases")
  else none

/-- `helpers.get_setting` (helpers.py lines 80-92): environment variable
override, else the built-in default.  (Only ever called with keys present
in the `defaults` table, so the `none` arm is unreachable in the code.) -/
def get_setting (env : Env) (s : String) : String :=
  match settingDefaults s with
  | some p => (env p.1).getD p.2
  | none => ""

/-- One hosted zone from `list_hosted_zones`: `Id`, `Name` (both may be
absent from the response dict) and `Config.PrivateZone` (absent means
`False`). -/
structure HostedZone where
  id : Option String
  name : Option String
  privateZone : Bool
  deriving DecidableEq, Repr

/-- The Route53 client, modelled by the responses the code reads:
the hosted-zone catalog of `list_hosted_zones` and, for each zone id
argument, the `VPCs` attachment list of `get_hosted_zone`. -/
structure Route53State where
  zones : List HostedZone
  att : Option String → List String

/-- The inner `for zone in hosted_zones` scan of `get_public_zone_id`
(route53_helpers.py lines 88-91): the first non-private zone whose `Name`
equals the candidate makes the function return the `Id` of that zone (which may
itself be absent).  `some r` means the Python loop executed `return r`;
`none` means the loop fell through. -/
def pubScan (check_zone : String) : List HostedZone → Option (Option String)
  | [] => none
  | z :: rest =>
    if z.privateZone = false ∧ z.name = some check_zone then some z.id
    else pubScan check_zone rest

/-- The `while len(zone_parts) >= 2` loop of `get_public_zone_id`
(route53_helpers.py lines 85-93): candidates are the label suffixes joined
with "." plus a trailing ".", longest first. -/
def pubLoop (zones : List HostedZone) : List String → Option String
  | [] => none
  | [_] => none
  | p₁ :: p₂ :: rest =>
    match pubScan (pyJoin "." (p₁ :: p₂ :: rest) ++ ".") zones with
    | some r => r
    | none => pubLoop zones (p₂ :: rest)

/-- `route53_helpers.get_public_zone_id` (lines 68-93).  The Python
`zone_name is None` test cannot fire in this embedding because the callers
always pass a string. -/
def get_public_zone_id (r53 : Route53State) (zone_name : String) : Option String :=
  if zone_name = "" then none
  else pubLoop r53.zones (pySplit '.' zone_name)

/-- The inner `for zone in hosted_zones` scan of `get_private_zone_id`
(route53_helpers.py lines 121-132): a private zone whose `Name` equals the
candidate is returned only if the `VPCs` list of `get_hosted_zone` for its
id contains the given VPC id; a name match that is not attached is skipped
and the scan continues.  `some r` means the Python loop executed
`return r`; `none` means it fell through. -/
def privScan (att : Option String → List String) (vpc_id check_zone : String) :
    List HostedZone → Option (Option String)
  | [] => none
  | z :: rest =>
    if z.privateZone = true ∧ z.name = some check_zone then
      if vpc_id ∈ att z.id then some z.id
      else privScan att vpc_id check_zone rest
    else privScan att vpc_id check_zone rest

/-- The `while len(zone_parts) >= 2` loop of `get_private_zone_id`
(route53_helpers.py lines 118-133). -/
def privLoop (att : Option String → List String) (vpc_id : String)
    (zones : List HostedZone) : List String → Option String
  | [] => none
  | [_] => none
  | p₁ :: p₂ :: rest =>
    match privScan att vpc_id (pyJoin "." (p₁ :: p₂ :: rest) ++ ".") zones with
    | some r => r
    | none => privLoop att vpc_id zones (p₂ :: rest)

/-- `route53_helpers.get_private_zone_id` (lines 96-134).  Note that the
source compares `zone_name` against the LITERAL string
`"\x7b\x7d.compute.internal"` (line 113) — the `.format(region)` call is
missing in the source — so the early-return branch never fires for an
actual `<region>.compute.internal` name.  The `region` parameter is
accepted but unused, exactly as in the source. -/
def get_private_zone_id (r53 : Route53State) (vpc_id region zone_name : String) :
    Option String :=
  if zone_name = "" then none
  else if zone_name = "\x7b\x7d.compute.internal" then none
  else privLoop r53.att vpc_id r53.zones (pySplit '.' zone_name)

/-- One VPC from `describe_vpcs`: the code only reads `DhcpOptionsId`. -/
structure Vpc where
  dhcpOptionsId : Option String
  deriving Repr

/-- One element of the `Values` list of a DHCP configuration: a dict whose
`Value` field may be absent. -/
structure DhcpValue where
  value : Option String
  deriving Repr

/-- One entry of `DhcpConfigurations`: a `Key` (may be absent) and a list
of values. -/
structure DhcpConfig where
  key : Option String
  values : List DhcpValue
  deriving Repr

/-- One DHCP options set from `describe_dhcp_options`. -/
structure DhcpOpt where
  configurations : List DhcpConfig
  deriving Repr

/-- One instance from `describe_instances`: the fields the code reads.
Absent string fields are the empty string, matching the
`instance.get(..., "")` defaults in the source. -/
structure Instance where
  publicIp : String
  privateIp : String
  vpcId : String
  tags : List TagEntry

/-- One reservation from `describe_instances`. -/
structure Reservation where
  instances : List Instance

/-- The EC2 client, modelled by the responses the code reads, keyed by the
argument of each call. -/
structure Ec2State where
  describeInstances : String → List Reservation
  describeVpcs : String → List Vpc
  describeDhcpOptions : String → List DhcpOpt

/-- The `for config in dhcp_configs` loop of `get_dhcp_options_domain`
(ec2_helpers.py lines 44-49): the first `domain-name` configuration with
exactly one value makes the function return the `Value` field of that value
(which may be absent); a `domain-name` configuration with a different
number of values is passed over and the scan continues. -/
def findDomainName : List DhcpConfig → Option String
  | [] => none
  | c :: rest =>
    if c.key = some "domain-name" then
      match c.values with
      | [v] => v.value
      | _ => findDomainName rest
    else findDomainName rest

/-- `ec2_helpers.get_dhcp_options_domain` (lines 13-51): `None` on any
cardinality mismatch (zero or several VPCs, missing `DhcpOptionsId`, zero
or several option sets) and on a missing `domain-name` value. -/
def get_dhcp_options_domain (ec2 : Ec2State) (vpc_id : String) : Option String :=
  match ec2.describeVpcs vpc_id with
  | [vpc] =>
    match vpc.dhcpOptionsId with
    | none => none
    | some oid =>
      match ec2.describeDhcpOptions oid with
      | [opt] => findDomainName opt.configurations
      | _ => none
  | _ => none

/-- The tag name that actually holds the DNS domain, after the per-account
indirection of `get_dns_domain` (ec2_helpers.py lines 72-81):
`tags.get(dns_domain_tag_name_account_tag, default_dns_domain_tag_name)`.
`none` when the indirection tag holds a list (an unhashable dict key in
Python). -/
def dnsDomainTagName (env : Env) (tags : Dict TagVal) : Option String :=
  match (dictGet tags (get_setting env "dns_domain_tag_name_account_tag")).getD
      (.str (get_setting env "default_dns_domain_tag_name")) with
  | .str k => some k
  | .list _ => none

/-- `ec2_helpers.get_dns_domain` (lines 54-87): the value of the named tag if
present, else the DHCP-options domain, else `<region>.compute.internal`.
The only way to raise is a list-valued indirection tag (an unhashable
Python dict key). -/
def get_dns_domain (ec2 : Ec2State) (env : Env) (vpc_id region : String)
    (tags : Dict TagVal) : Except String String :=
  match dnsDomainTagName env tags with
  | none => .error "TypeError: unhashable type: list"
  | some k =>
    match dictGet tags k with
    | some v => .ok v.fmt
    | none =>
      .ok ((get_dhcp_options_domain ec2 vpc_id).getD (region ++ ".compute.internal"))

/-- The tag name that actually holds the hostname, after the per-account
indirection of `get_hostname` (ec2_helpers.py lines 105-113). -/
def hostnameTagName (env : Env) (tags : Dict TagVal) : Option String :=
  match (dictGet tags (get_setting env "hostname_tag_name_account_tag")).getD
      (.str (get_setting env "default_hostname_tag_name")) with
  | .str k => some k
  | .list _ => none

/-- `ec2_helpers.get_hostname` (lines 90-117): the value of the named tag, else
the `Name` tag, else `None`. -/
def get_hostname (env : Env) (tags : Dict TagVal) : Except String (Option TagVal) :=
  match hostnameTagName env tags with
  | none => .error "TypeError: unhashable type: list"
  | some k =>
    match dictGet tags k with
    | some v => .ok (some v)
    | none => .ok (dictGet tags "Name")

/-- The hostname/domain/fqdn split appearing identically in
`register_host` (route53_helpers.py lines 191-198) and `get_aliases`
(lines 43-50): a bare hostname gets the supplied domain appended to build
the fqdn; a dotted hostname is split at the first dot and — as written in
the source — `fqdn` is then assigned the already-truncated `hostname`
(`parts[0]`), not the original dotted name. -/
def resolveParts (hostname domainForBare : String) : String × String × String :=
  let parts := pySplit '.' hostname
  if parts.length = 1 then
    (hostname, domainForBare, hostname ++ "." ++ domainForBare)
  else
    (parts.headI, pyJoin "." parts.tail, parts.headI)

/-- PTR name and reverse (`in-addr.arpa`) zone name from the private IP,
as computed in `register_host` (route53_helpers.py lines 202-206):
`octets[3].octets[2].octets[1].octets[0].in-addr.arpa` and
`octets[2].octets[1].octets[0].in-addr.arpa`.  `none` models the Python
`IndexError` when the split yields fewer than four parts. -/
def ptrAndArpa (private_ip : String) : Option (String × String) :=
  match pySplit '.' private_ip with
  | a :: b :: c :: d :: _ =>
    some (d ++ "." ++ c ++ "." ++ b ++ "." ++ a ++ ".in-addr.arpa",
          c ++ "." ++ b ++ "." ++ a ++ ".in-addr.arpa")
  | _ => none

/-- The per-alias settings dict built by `get_aliases`
(route53_helpers.py line 64). -/
structure AliasSettings where
  hostname : String
  dns_domain : String
  fqdn : String
  zone_id : Option TagVal
  deriving DecidableEq, Repr

/-- The body of the `for alias in ...` loop of `get_aliases`
(route53_helpers.py lines 32-64) for one alias token: per-alias hostname
override (the alias itself when absent), the hostname/domain/fqdn split,
and the zone id (tag override first, else zone lookup by visibility).
A list-valued hostname tag raises at `hostname.split(".")`. -/
def aliasSettingsFor (r53 : Route53State) (vpc_id region : String)
    (tags : Dict TagVal) (aliases_tag alias_type default_dns_domain aliasKey : String) :
    Except String AliasSettings := do
  let tag_base := aliases_tag ++ "/" ++ alias_type ++ "/" ++ aliasKey
  let hostname ←
    match dictGet tags (tag_base ++ "/hostname") with
    | some (.str h) => Except.ok h
    | some (.list _) => Except.error "AttributeError: list object has no attribute split"
    | none => Except.ok aliasKey
  let idr := resolveParts hostname default_dns_domain
  let zone_id : Option TagVal :=
    match dictGet tags (tag_base ++ "/zone_id") with
    | some v => some v
    | none =>
      if alias_type = "private" then
        (get_private_zone_id r53 vpc_id region idr.2.1).map .str
      else if alias_type = "public" then
        (get_public_zone_id r53 idr.2.1).map .str
      else none
  pure ⟨idr.1, idr.2.1, idr.2.2, zone_id⟩

/-- `route53_helpers.get_aliases` (lines 15-65).  The aliases tag value
defaults to the Python list `[]` when absent (line 30), on which
`.split(",")` raises `AttributeError`; a present string value is split on
commas, each token stripped, and the loop builds the settings dict in
order. -/
def get_aliases (r53 : Route53State) (vpc_id region : String) (tags : Dict TagVal)
    (aliases_tag alias_type default_dns_domain : String) :
    Except String (Dict AliasSettings) :=
  match (dictGet tags (aliases_tag ++ "/" ++ alias_type)).getD (.list []) with
  | .list _ => .error "AttributeError: list object has no attribute split"
  | .str s =>
    List.foldlM
      (fun acc aliasKey => do
        let st ← aliasSettingsFor r53 vpc_id region tags aliases_tag alias_type
          default_dns_domain aliasKey
        pure (dictSet acc aliasKey st))
      [] ((pySplit ',' s).map pyStrip)

/-- One record appended to the `records` list of `register_host`
(route53_helpers.py lines 215-220, 238-243, 253-258, 273-278).  The
`zone_id` is a `TagVal` because the zone id of an alias may come verbatim from
a tag. -/
structure DnsChange where
  zone_id : TagVal
  type : String
  name : String
  data : String
  deriving DecidableEq, Repr

/-- The value `register_host` returns: the source returns the Python list
`records` on the no-hostname path (line 190) but the integer `0` on the
no-public-IP path (line 263) and at the end (line 280). -/
inductive RegisterResult where
  | pyList (records : List DnsChange)
  | pyInt (n : Int)
  deriving DecidableEq, Repr

/-- Folds the per-alias registration loops of `register_host`
(route53_helpers.py lines 233-244 and 268-279): aliases without a zone id
are skipped, the rest append an A record with the given IP. -/
def aliasRecords (aliases : Dict AliasSettings) (ip : String) : List DnsChange :=
  List.foldl
    (fun acc p =>
      match (p.2).zone_id with
      | none => acc
      | some zv => acc ++ [⟨zv, "A", (p.2).fqdn, ip⟩])
    [] aliases

/-- `route53_helpers.register_host` (lines 137-280).  The `change_record`
calls are pure I/O whose failures the source catches and logs (lines
298-315), so only the `records` bookkeeping is modelled.  The source test
`public_ip is ""` (line 167) behaves as equality for the empty string in
CPython and is modelled as equality. -/
def register_host (ec2 : Ec2State) (r53 : Route53State) (env : Env)
    (region instance_id : String) : Except String RegisterResult :=
  match ec2.describeInstances instance_id with
  | [res] =>
    match res.instances with
    | [inst] =>
      let public_ip : Option String := if inst.publicIp = "" then none else some inst.publicIp
      if inst.privateIp = "" then .error "instance is missing private IP"
      else if inst.vpcId = "" then .error "instance is missing VPC ID"
      else do
        let instance_tags := tags_to_dict inst.tags
        let hn ← get_hostname env instance_tags
        match hn with
        | none => pure (.pyList [])
        | some (.list _) => Except.error "AttributeError: list object has no attribute split"
        | some (.str h) => do
          let parts := pySplit '.' h
          let dns_domain ←
            if parts.length = 1 then get_dns_domain ec2 env inst.vpcId region instance_tags
            else pure (pyJoin "." parts.tail)
          let idr := resolveParts h dns_domain
          let fqdn := idr.2.2
          let dd := idr.2.1
          match ptrAndArpa inst.privateIp with
          | none => Except.error "IndexError: list index out of range"
          | some pa => do
            let ptr_record := pa.1
            let arpa_zone := pa.2
            let records1 : List DnsChange :=
              match get_private_zone_id r53 inst.vpcId region dd with
              | none => []
              | some zid => [⟨.str zid, "A", fqdn, inst.privateIp⟩]
            let aliases_tag :=
              ((dictGet instance_tags (get_setting env "aliases_tag_name_account_tag")).getD
                (.str (get_setting env "default_aliases_tag_name"))).fmt
            let priv ← get_aliases r53 inst.vpcId region instance_tags aliases_tag "private" dd
            let records2 := records1 ++ aliasRecords priv inst.privateIp
            let records3 :=
              match get_private_zone_id r53 inst.vpcId region arpa_zone with
              | none => records2
              | some zid => records2 ++ [⟨.str zid, "PTR", ptr_record, fqdn ++ "."⟩]
            match public_ip with
            | none => pure (.pyInt 0)
            | some pip => do
              let pub ← get_aliases r53 inst.vpcId region instance_tags aliases_tag "public" dd
              let _records4 := records3 ++ aliasRecords pub pip
              pure (.pyInt 0)
    | _ => .error "unexpected result when retrieving instance data"
  | _ => .error "unexpected result when retrieving instance data"

/-! ### Concrete states used in the theorems below -/

/-- An empty environment: every setting takes its built-in default. -/
def envNone : Env := fun _ => none

/-- A Route53 catalog with no hosted zones. -/
def r53Empty : Route53State := ⟨[], fun _ => []⟩

/-- Two public zones `b.c.` and `a.b.c.`, as in the spec example. -/
def r53TwoPublic : Route53State :=
  ⟨[⟨some "id1", some "b.c.", false⟩, ⟨some "id2", some "a.b.c.", false⟩], fun _ => []⟩

/-- One private zone named `compute.internal.` attached to `vpc-1`. -/
def r53ComputeInternal : Route53State :=
  ⟨[⟨some "Z1", some "compute.internal.", true⟩], fun _ => ["vpc-1"]⟩

/-- An instance whose only tag is `Name: web1` (no aliases tag at all),
with private IP `10.1.2.3`, no public IP, in `vpc-1`; the VPC has no
resolvable DHCP domain. -/
def ec2OnlyNameTag : Ec2State :=
  ⟨fun _ => [⟨[⟨"", "10.1.2.3", "vpc-1", [⟨some "Name", some "web1", none⟩]⟩]⟩],
   fun _ => [], fun _ => []⟩

/-- An instance with `Name: web1` and a private aliases tag holding the
string `"www"`, private IP `10.1.2.3`, no public IP, in `vpc-1`; the DHCP
options of the VPC supply domain `corp.internal`. -/
def ec2WithPrivAlias : Ec2State :=
  ⟨fun _ => [⟨[⟨"", "10.1.2.3", "vpc-1",
      [⟨some "Name", some "web1", none⟩,
       ⟨some "fn.aws.joshhogle.com/update-route53-host-records/aliases/private",
        some "www", none⟩]⟩]⟩],
   fun _ => [⟨some "dopt-1"⟩],
   fun _ => [⟨[⟨some "domain-name", [⟨some "corp.internal"⟩]⟩]⟩]⟩

/-- One private zone `corp.internal.` attached to `vpc-1`. -/
def r53CorpInternal : Route53State :=
  ⟨[⟨some "Z1", some "corp.internal.", true⟩], fun _ => ["vpc-1"]⟩

/-- An instance with no tags at all (so no hostname and no `Name` tag),
private IP `10.1.2.3`, in `vpc-1`. -/
def ec2NoTags : Ec2State :=
  ⟨fun _ => [⟨[⟨"", "10.1.2.3", "vpc-1", []⟩]⟩], fun _ => [], fun _ => []⟩

/-! ### Claim theorems -/

/-- C1: the identity split used by `register_host` and `get_aliases` does
NOT satisfy `fqdn = hostname ++ "." ++ domain` for a dotted raw hostname:
for `web1.corp.internal` the source assigns `fqdn = parts[0] = "web1"`
(hostname and domain are split correctly, but the fqdn is truncated to the
bare hostname, because `hostname` is reassigned to `parts[0]` before
`fqdn = hostname` runs).  The bare-hostname branch does produce the full
`hostname ++ "." ++ domain`. -/
theorem resolveParts_truncates_dotted_fqdn :
    resolveParts "web1.corp.internal" "corp.example" = ("web1", "corp.internal", "web1") ∧
    resolveParts "web1" "corp.internal" = ("web1", "corp.internal", "web1.corp.internal") ∧
    (("web1" : String) == "web1" ++ "." ++ "corp.internal") = false ∧
    get_aliases r53Empty "vpc-1" "us-east-1"
      [("fn.aws.joshhogle.com/update-route53-host-records/aliases/private",
        TagVal.str "www"),
       ("fn.aws.joshhogle.com/update-route53-host-records/aliases/private/www/hostname",
        TagVal.str "www.sub.example")]
      "fn.aws.joshhogle.com/update-route53-host-records/aliases" "private"
      "corp.internal" =
      .ok [("www", ⟨"www", "sub.example", "www", none⟩)] := by
  refine ⟨rfl, rfl, by decide, rfl⟩

/-- C2: on a successful registration run (hostname resolves, records are
emitted) `register_host` returns the Python integer `0`, not the list of
emitted records: the source has `return 0` at lines 263 and 280 instead of
`return records`, contradicting its own docstring
(`Returns: list: List of records that were registered with Route53.`). -/
theorem register_host_returns_int_not_records :
    register_host ec2WithPrivAlias r53CorpInternal envNone "us-east-1" "i-1" =
      .ok (.pyInt 0) := rfl

/-- C3: the early-exit for the synthetic default private domain never
fires, because the source compares against the LITERAL string
`"\x7b\x7d.compute.internal"` (the `.format(region)` call is missing at
route53_helpers.py line 113).  So for region `us-east-1` and zone name
`us-east-1.compute.internal` the catalog IS scanned, and here the scan
even finds and returns a zone (`compute.internal.` at the second
candidate depth) instead of the claimed unconditional NotFound; only the
nonsensical literal name itself is skipped. -/
theorem get_private_zone_id_scans_default_private_domain :
    get_private_zone_id r53ComputeInternal "vpc-1" "us-east-1"
      "us-east-1.compute.internal" = some "Z1" ∧
    get_private_zone_id r53ComputeInternal "vpc-1" "us-east-1"
      "\x7b\x7d.compute.internal" = none := ⟨rfl, rfl⟩

/-- C4: an instance whose tags contain a hostname but no aliases tag does
NOT register cleanly: `get_aliases` defaults the missing aliases tag to
the Python list `[]` (route53_helpers.py line 30) and then calls
`.split(",")` on it, raising `AttributeError`, which propagates out of
`register_host`. -/
theorem register_host_raises_on_missing_aliases_tag :
    register_host ec2OnlyNameTag r53Empty envNone "us-east-1" "i-1" =
      .error "AttributeError: list object has no attribute split" := rfl

/-- C9: for every private IP that splits on dots into exactly four octets
`a.b.c.d`, the PTR name computed by `register_host` is
`d.c.b.a.in-addr.arpa` and the containing reverse zone name is
`c.b.a.in-addr.arpa`. -/
theorem register_host_ptr_derivation (ip a b c d : String)
    (h : pySplit '.' ip = [a, b, c, d]) :
    ptrAndArpa ip =
      some (d ++ "." ++ c ++ "." ++ b ++ "." ++ a ++ ".in-addr.arpa",
            c ++ "." ++ b ++ "." ++ a ++ ".in-addr.arpa") := by
  unfold ptrAndArpa
  rw [h]

/-- C9 witness: `10.1.2.3` yields PTR name `3.2.1.10.in-addr.arpa` in
reverse zone `2.1.10.in-addr.arpa`. -/
theorem register_host_ptr_derivation_witness :
    ptrAndArpa "10.1.2.3" =
      some ("3.2.1.10.in-addr.arpa", "2.1.10.in-addr.arpa") :=
  register_host_ptr_derivation "10.1.2.3" "10" "1" "2" "3" rfl

/-- The candidate zone names tried by the lookup loops, in order: labels
`[i:]` joined with "." plus a trailing ".", starting from the full label
list and dropping the leftmost label each step, stopping once fewer than
two labels remain. -/
def zoneCandidates : List String → List String
  | [] => []
  | [_] => []
  | p₁ :: p₂ :: rest =>
    (pyJoin "." (p₁ :: p₂ :: rest) ++ ".") :: zoneCandidates (p₂ :: rest)

/-- Whether a zone is a public zone with the given name. -/
def publicNamed (c : String) (z : HostedZone) : Bool :=
  decide (z.privateZone = false ∧ z.name = some c)

/-- Modelled from the spec (§4.2): walk the candidate list longest-first
and return the id of the first public zone whose name matches the current
candidate; NotFound (`none`) when no candidate matches any zone. -/
def findZoneSpec (zones : List HostedZone) : List String → Option String
  | [] => none
  | c :: cs =>
    match List.find? (publicNamed c) zones with
    | some z => z.id
    | none => findZoneSpec zones cs

theorem pubScan_eq_find (c : String) (zs : List HostedZone) :
    pubScan c zs = (List.find? (publicNamed c) zs).map (fun z => z.id) := by
  induction zs with
  | nil => rfl
  | cons z rest ih =>
    cases hd : publicNamed c z with
    | true =>
      simp only [pubScan, List.find?_cons, hd]
      rw [if_pos (of_decide_eq_true hd)]
      rfl
    | false =>
      simp only [pubScan, List.find?_cons, hd]
      rw [if_neg (of_decide_eq_false hd)]
      exact ih

theorem pubLoop_eq_findZoneSpec (zones : List HostedZone) :
    ∀ parts, pubLoop zones parts = findZoneSpec zones (zoneCandidates parts)
  | [] => rfl
  | [_] => rfl
  | p₁ :: p₂ :: rest => by
    have ih := pubLoop_eq_findZoneSpec zones (p₂ :: rest)
    rw [pubLoop, zoneCandidates, findZoneSpec, pubScan_eq_find]
    cases List.find? (publicNamed (pyJoin "." (p₁ :: p₂ :: rest) ++ ".")) zones with
    | none => simpa using ih
    | some z => rfl

theorem findZoneSpec_none_of_no_match (zones : List HostedZone) :
    ∀ cands, (∀ c ∈ cands, ∀ z ∈ zones, publicNamed c z = false) →
      findZoneSpec zones cands = none
  | [], _ => rfl
  | c :: cs, h => by
    rw [findZoneSpec]
    have hfind : List.find? (publicNamed c) zones = none := by
      rw [List.find?_eq_none]
      intro z hz
      simp [h c (by simp) z hz]
    rw [hfind]
    exact findZoneSpec_none_of_no_match zones cs (fun d hd => h d (List.mem_cons_of_mem _ hd))

/-- C5: public zone lookup is exactly the longest-suffix-first search over
the candidate list (`zoneCandidates`): the refinement holds for every
non-empty zone name; on the spec example with zones `b.c.` (id1) and
`a.b.c.` (id2), looking up `x.a.b.c` returns id2; and when no candidate
at any depth matches any public zone the lookup returns NotFound. -/
theorem get_public_zone_id_longest_suffix_first :
    (∀ (zones : List HostedZone) (att : Option String → List String) (name : String),
      name ≠ "" →
      get_public_zone_id ⟨zones, att⟩ name =
        findZoneSpec zones (zoneCandidates (pySplit '.' name))) ∧
    get_public_zone_id r53TwoPublic "x.a.b.c" = some "id2" ∧
    (∀ (zones : List HostedZone) (att : Option String → List String) (name : String),
      (∀ c ∈ zoneCandidates (pySplit '.' name), ∀ z ∈ zones,
        publicNamed c z = false) →
      get_public_zone_id ⟨zones, att⟩ name = none) := by
  refine ⟨?_, rfl, ?_⟩
  · intro zones att name hne
    rw [get_public_zone_id, if_neg hne]
    exact pubLoop_eq_findZoneSpec zones (pySplit '.' name)
  · intro zones att name h
    rw [get_public_zone_id]
    split
    · rfl
    · rw [pubLoop_eq_findZoneSpec]
      exact findZoneSpec_none_of_no_match zones _ h

/-- C5 witness: the refinement and the NotFound case evaluated on the
two-zone example. -/
theorem get_public_zone_id_longest_suffix_first_witness :
    get_public_zone_id r53TwoPublic "x.a.b.c" =
      findZoneSpec r53TwoPublic.zones (zoneCandidates (pySplit '.' "x.a.b.c")) ∧
    get_public_zone_id r53TwoPublic "x.y.zz" = none :=
  ⟨get_public_zone_id_longest_suffix_first.1 r53TwoPublic.zones r53TwoPublic.att
      "x.a.b.c" (by decide),
   get_public_zone_id_longest_suffix_first.2.2 r53TwoPublic.zones r53TwoPublic.att
      "x.y.zz" (by decide)⟩

theorem privScan_sound (att : Option String → List String) (v c : String)
    (zs : List HostedZone) (r : Option String) (h : privScan att v c zs = some r) :
    ∃ z, z ∈ zs ∧ z.privateZone = true ∧ z.name = some c ∧ v ∈ att z.id ∧ r = z.id := by
  induction zs with
  | nil => simp [privScan] at h
  | cons z rest ih =>
    by_cases h1 : z.privateZone = true ∧ z.name = some c
    · by_cases h2 : v ∈ att z.id
      · rw [privScan, if_pos h1, if_pos h2] at h
        exact ⟨z, List.mem_cons_self z rest, h1.1, h1.2, h2, (Option.some.inj h).symm⟩
      · rw [privScan, if_pos h1, if_neg h2] at h
        obtain ⟨z₀, hz, p1, p2, p3, p4⟩ := ih h
        exact ⟨z₀, List.mem_cons_of_mem z hz, p1, p2, p3, p4⟩
    · rw [privScan, if_neg h1] at h
      obtain ⟨z₀, hz, p1, p2, p3, p4⟩ := ih h
      exact ⟨z₀, List.mem_cons_of_mem z hz, p1, p2, p3, p4⟩

theorem privLoop_sound (att : Option String → List String) (v : String)
    (zs : List HostedZone) :
    ∀ parts zid, privLoop att v zs parts = some zid →
      ∃ z, z ∈ zs ∧ z.privateZone = true ∧ v ∈ att z.id ∧ z.id = some zid
  | [], _, h => by simp [privLoop] at h
  | [_], _, h => by simp [privLoop] at h
  | p₁ :: p₂ :: rest, zid, h => by
    rw [privLoop] at h
    cases hs : privScan att v (pyJoin "." (p₁ :: p₂ :: rest) ++ ".") zs with
    | some r =>
      rw [hs] at h
      obtain ⟨z, hz, p1, p2, p3, p4⟩ := privScan_sound att v _ zs r hs
      exact ⟨z, hz, p1, p3, by rw [← p4, ← h]⟩
    | none =>
      rw [hs] at h
      exact privLoop_sound att v zs (p₂ :: rest) zid h

theorem privScan_skip (att : Option String → List String) (v c : String)
    (z : HostedZone) (hv : v ∉ att z.id) :
    ∀ l1 l2, privScan att v c (l1 ++ z :: l2) = privScan att v c (l1 ++ l2)
  | [], l2 => by
    simp only [List.nil_append]
    by_cases h1 : z.privateZone = true ∧ z.name = some c
    · rw [privScan, if_pos h1, if_neg hv]
    · rw [privScan, if_neg h1]
  | w :: l1, l2 => by
    simp only [List.cons_append]
    by_cases h1 : w.privateZone = true ∧ w.name = some c
    · by_cases h2 : v ∈ att w.id
      · rw [privScan, if_pos h1, if_pos h2, privScan, if_pos h1, if_pos h2]
      · rw [privScan, if_pos h1, if_neg h2, privScan, if_pos h1, if_neg h2]
        exact privScan_skip att v c z hv l1 l2
    · rw [privScan, if_neg h1, privScan, if_neg h1]
      exact privScan_skip att v c z hv l1 l2

theorem privLoop_congr (att : Option String → List String) (v : String)
    (zs1 zs2 : List HostedZone)
    (h : ∀ c, privScan att v c zs1 = privScan att v c zs2) :
    ∀ parts, privLoop att v zs1 parts = privLoop att v zs2 parts
  | [] => rfl
  | [_] => rfl
  | p₁ :: p₂ :: rest => by
    rw [privLoop, privLoop, h (pyJoin "." (p₁ :: p₂ :: rest) ++ ".")]
    cases privScan att v (pyJoin "." (p₁ :: p₂ :: rest) ++ ".") zs2 with
    | some r => rfl
    | none => exact privLoop_congr att v zs1 zs2 h (p₂ :: rest)

/-- C6: private zone lookup honours VPC attachment.  (1) Soundness: a
returned zone id always belongs to a private zone of the catalog whose
`get_hosted_zone` attachment list contains the given VPC id.  (2) A zone
that is not attached to the VPC — even one whose name matches a candidate
exactly — is transparently skipped: deleting it from the catalog does not
change the result, so the scan continues over the remaining zones and
shorter candidates. -/
theorem get_private_zone_id_requires_vpc_attachment :
    (∀ (zones : List HostedZone) (att : Option String → List String)
       (vpc_id region name zid : String),
      get_private_zone_id ⟨zones, att⟩ vpc_id region name = some zid →
      ∃ z, z ∈ zones ∧ z.privateZone = true ∧ vpc_id ∈ att z.id ∧ z.id = some zid) ∧
    (∀ (l1 l2 : List HostedZone) (z : HostedZone)
       (att : Option String → List String) (vpc_id region name : String),
      vpc_id ∉ att z.id →
      get_private_zone_id ⟨l1 ++ z :: l2, att⟩ vpc_id region name =
        get_private_zone_id ⟨l1 ++ l2, att⟩ vpc_id region name) := by
  constructor
  · intro zones att vpc_id region name zid h
    rw [get_private_zone_id] at h
    split at h
    · exact absurd h (by simp)
    · split at h
      · exact absurd h (by simp)
      · exact privLoop_sound att vpc_id zones _ zid h
  · intro l1 l2 z att vpc_id region name hv
    rw [get_private_zone_id, get_private_zone_id]
    split
    · rfl
    · split
      · rfl
      · exact privLoop_congr att vpc_id _ _
          (fun c => privScan_skip att vpc_id c z hv l1 l2) _

/-- Attachments for the C6 witness catalog: only zone `Z2` is attached to
`vpc-1`. -/
def attAB : Option String → List String :=
  fun oid => if oid = some "Z2" then ["vpc-1"] else []

/-- C6 witness catalog: two private zones both named `a.b.`, of which only
the second (`Z2`) is attached to `vpc-1`. -/
def r53AttachCheck : Route53State :=
  ⟨[⟨some "Z1", some "a.b.", true⟩, ⟨some "Z2", some "a.b.", true⟩], attAB⟩

/-- C6 witness: on the two-zone catalog the lookup skips the unattached
name-matching zone `Z1` and returns the attached `Z2`; and deleting the
unattached `Z1` from the catalog does not change the result. -/
theorem get_private_zone_id_requires_vpc_attachment_witness :
    (∃ z, z ∈ r53AttachCheck.zones ∧ z.privateZone = true ∧
      "vpc-1" ∈ r53AttachCheck.att z.id ∧ z.id = some "Z2") ∧
    get_private_zone_id ⟨[] ++ HostedZone.mk (some "Z1") (some "a.b.") true ::
        [HostedZone.mk (some "Z2") (some "a.b.") true], attAB⟩
        "vpc-1" "us-east-1" "a.b" =
      get_private_zone_id ⟨[] ++ [HostedZone.mk (some "Z2") (some "a.b.") true], attAB⟩
        "vpc-1" "us-east-1" "a.b" := by
  constructor
  · exact get_private_zone_id_requires_vpc_attachment.1 r53AttachCheck.zones
      r53AttachCheck.att "vpc-1" "us-east-1" "a.b" "Z2" rfl
  · exact get_private_zone_id_requires_vpc_attachment.2 []
      [HostedZone.mk (some "Z2") (some "a.b.") true]
      (HostedZone.mk (some "Z1") (some "a.b.") true) attAB
      "vpc-1" "us-east-1" "a.b" (by decide)

/-- C7: domain resolution precedence.  (1) When the (possibly
account-indirected) DNS-domain tag is present in the instance tags, its
value is returned immediately and the result does not depend on the EC2
state or VPC at all (the network is not consulted).  (2) When the tag is
absent, the result is the DHCP-derived domain when `get_dhcp_options_domain`
finds one and the fallback `<region>.compute.internal` otherwise — always
`.ok`, never an exception.  (3)-(5): any cardinality mismatch (zero or
several VPCs, missing options id, zero or several option sets) makes
`get_dhcp_options_domain` return `none` rather than raise. -/
theorem get_dns_domain_precedence :
    (∀ (ec2 ec2' : Ec2State) (env : Env) (vpc vpc' region : String)
       (tags : Dict TagVal) (k : String) (v : TagVal),
      dnsDomainTagName env tags = some k → dictGet tags k = some v →
      get_dns_domain ec2 env vpc region tags = .ok v.fmt ∧
      get_dns_domain ec2' env vpc' region tags = .ok v.fmt) ∧
    (∀ (ec2 : Ec2State) (env : Env) (vpc region : String)
       (tags : Dict TagVal) (k : String),
      dnsDomainTagName env tags = some k → dictGet tags k = none →
      get_dns_domain ec2 env vpc region tags =
        .ok ((get_dhcp_options_domain ec2 vpc).getD (region ++ ".compute.internal"))) ∧
    (∀ (ec2 : Ec2State) (vpc : String),
      (ec2.describeVpcs vpc).length ≠ 1 → get_dhcp_options_domain ec2 vpc = none) ∧
    (∀ (ec2 : Ec2State) (vpc : String) (v : Vpc),
      ec2.describeVpcs vpc = [v] → v.dhcpOptionsId = none →
      get_dhcp_options_domain ec2 vpc = none) ∧
    (∀ (ec2 : Ec2State) (vpc : String) (v : Vpc) (oid : String),
      ec2.describeVpcs vpc = [v] → v.dhcpOptionsId = some oid →
      (ec2.describeDhcpOptions oid).length ≠ 1 →
      get_dhcp_options_domain ec2 vpc = none) := by
  refine ⟨?_, ?_, ?_, ?_, ?_⟩
  · intro ec2 ec2' env vpc vpc' region tags k v h1 h2
    constructor <;> simp only [get_dns_domain, h1, h2]
  · intro ec2 env vpc region tags k h1 h2
    simp only [get_dns_domain, h1, h2]
  · intro ec2 vpc h
    rcases hv : ec2.describeVpcs vpc with _ | ⟨a, _ | ⟨b, l⟩⟩
    · simp [get_dhcp_options_domain, hv]
    · rw [hv] at h
      simp at h
    · simp [get_dhcp_options_domain, hv]
  · intro ec2 vpc v h1 h2
    simp [get_dhcp_options_domain, h1, h2]
  · intro ec2 vpc v oid h1 h2 h3
    simp only [get_dhcp_options_domain, h1, h2]
    rcases ho : ec2.describeDhcpOptions oid with _ | ⟨a, _ | ⟨b, l⟩⟩
    · rfl
    · rw [ho] at h3
      simp at h3
    · rfl

/-- Instance tags holding an explicit DNS-domain tag. -/
def tagsWithDomain : Dict TagVal :=
  [("fn.aws.joshhogle.com/update-route53-host-records/dns_domain",
    TagVal.str "corp.example")]

/-- C7 witness: with the DNS-domain tag present the domain comes from the
tag under two different EC2 states; with no tags at all the resolver
degrades to the DHCP/fallback expression; and a zero-VPC describe result
is a non-fatal `none`. -/
theorem get_dns_domain_precedence_witness :
    (get_dns_domain ec2NoTags envNone "vpc-1" "us-east-1" tagsWithDomain =
        .ok "corp.example" ∧
      get_dns_domain ec2WithPrivAlias envNone "vpc-x" "us-east-1" tagsWithDomain =
        .ok "corp.example") ∧
    get_dns_domain ec2NoTags envNone "vpc-1" "us-east-1" [] =
      .ok ((get_dhcp_options_domain ec2NoTags "vpc-1").getD
        ("us-east-1" ++ ".compute.internal")) ∧
    get_dhcp_options_domain ec2NoTags "vpc-1" = none := by
  refine ⟨?_, ?_, ?_⟩
  · exact get_dns_domain_precedence.1 ec2NoTags ec2WithPrivAlias envNone
      "vpc-1" "vpc-x" "us-east-1" tagsWithDomain
      "fn.aws.joshhogle.com/update-route53-host-records/dns_domain"
      (TagVal.str "corp.example") rfl rfl
  · exact get_dns_domain_precedence.2.1 ec2NoTags envNone "vpc-1" "us-east-1" []
      "fn.aws.joshhogle.com/update-route53-host-records/dns_domain" rfl rfl
  · exact get_dns_domain_precedence.2.2.1 ec2NoTags "vpc-1" (by decide)

theorem dictSet_mem {α : Type} (d : Dict α) (k : String) (v : α)
    (p : String × α) (h : p ∈ dictSet d k v) : p ∈ d ∨ p = (k, v) := by
  unfold dictSet at h
  split at h
  · obtain ⟨q, hq, hfq⟩ := List.mem_map.mp h
    by_cases hk : q.1 = k
    · right
      rw [← hfq, if_pos hk]
    · left
      rw [← hfq, if_neg hk]
      exact hq
  · rcases List.mem_append.mp h with h1 | h2
    · left
      exact h1
    · right
      simpa using h2

theorem foldl_tagsStep_mem :
    ∀ (ts : List TagEntry) (acc : Dict TagVal) (p : String × TagVal),
      p ∈ List.foldl tagsStep acc ts →
      p ∈ acc ∨ ∃ t, t ∈ ts ∧ t.key = some p.1 ∧ entryVal t = some p.2
  | [], acc, p, h => by simpa using h
  | t :: ts, acc, p, h => by
    rcases foldl_tagsStep_mem ts (tagsStep acc t) p h with h1 | ⟨t₀, ht₀, h2, h3⟩
    · rcases ht : t.key with _ | k
      · rw [tagsStep, ht] at h1
        exact Or.inl h1
      · rcases he : entryVal t with _ | v
        · rw [tagsStep, ht, he] at h1
          exact Or.inl h1
        · rw [tagsStep, ht, he] at h1
          rcases dictSet_mem acc k v p h1 with h4 | h4
          · exact Or.inl h4
          · refine Or.inr ⟨t, List.mem_cons_self t ts, ?_, ?_⟩
            · rw [ht, h4]
            · rw [he, h4]
    · exact Or.inr ⟨t₀, List.mem_cons_of_mem t ht₀, h2, h3⟩

/-- C8 counterexample: a tag entry carrying a `Values` list is stored with
its list as the dict value, so NOT every value stored in the mapping is a
string, contrary to the claim. -/
theorem tags_to_dict_values_entry_not_string :
    tags_to_dict [⟨some "k", none, some ["v"]⟩] = [("k", TagVal.list ["v"])] ∧
    List.all (tags_to_dict [⟨some "k", none, some ["v"]⟩])
      (fun p => (p.2).isStrVal) = false := by
  decide

/-- C8 (amended): `tags_to_dict` maps tag keys to tag values where a value
is the `Values` list of the entry when that field is present and otherwise
the `Value` string; `[Key: Name, Value: web1]` converts to the mapping
`Name -> web1`; every stored pair comes from an entry carrying its key and
value; and entries missing `Key` or missing both `Value` and `Values` are
dropped without error. -/
theorem tags_to_dict_spec :
    tags_to_dict [⟨some "Name", some "web1", none⟩] = [("Name", TagVal.str "web1")] ∧
    (∀ (ts : List TagEntry) (p : String × TagVal), p ∈ tags_to_dict ts →
      ∃ t, t ∈ ts ∧ t.key = some p.1 ∧ entryVal t = some p.2) ∧
    (∀ (t : TagEntry) (ts : List TagEntry), t.key = none ∨ entryVal t = none →
      tags_to_dict (t :: ts) = tags_to_dict ts) := by
  refine ⟨by decide, ?_, ?_⟩
  · intro ts p h
    rcases foldl_tagsStep_mem ts [] p h with h1 | h1
    · simp at h1
    · exact h1
  · intro t ts h
    have hstep : tagsStep [] t = [] := by
      rcases h with h | h
      · rw [tagsStep, h]
      · rcases ht : t.key with _ | k
        · rw [tagsStep, ht]
        · rw [tagsStep, ht, h]
    rw [tags_to_dict, tags_to_dict, List.foldl_cons, hstep]

/-- C8 witness: the membership and drop clauses of the amended claim at
concrete inputs. -/
theorem tags_to_dict_spec_witness :
    (∃ t, t ∈ [TagEntry.mk (some "Name") (some "web1") none] ∧
      t.key = some "Name" ∧ entryVal t = some (TagVal.str "web1")) ∧
    tags_to_dict [⟨none, some "orphan", none⟩] = tags_to_dict [] := by
  constructor
  · exact tags_to_dict_spec.2.1 [⟨some "Name", some "web1", none⟩]
      ("Name", TagVal.str "web1") (by decide)
  · exact tags_to_dict_spec.2.2 ⟨none, some "orphan", none⟩ [] (Or.inl rfl)

/-- C10: when no hostname resolves, registration is a silent no-op.
(1) `get_hostname` yields `none` (without error) when neither the
account-indirected hostname tag nor the `Name` tag is present.
(2) For ANY instance whose metadata is well-formed (exactly one
reservation with exactly one instance, non-empty private IP and VPC id)
but whose tags yield no hostname, `register_host` returns the empty
record list `.ok (.pyList [])` — no exception, no DNS change, regardless
of the zone catalog, environment or region. -/
theorem register_host_no_hostname_returns_empty :
    (∀ (env : Env) (tags : Dict TagVal) (k : String),
      hostnameTagName env tags = some k → dictGet tags k = none →
      dictGet tags "Name" = none → get_hostname env tags = .ok none) ∧
    (∀ (ec2 : Ec2State) (r53 : Route53State) (env : Env) (region iid : String)
       (res : Reservation) (inst : Instance),
      ec2.describeInstances iid = [res] → res.instances = [inst] →
      inst.privateIp ≠ "" → inst.vpcId ≠ "" →
      get_hostname env (tags_to_dict inst.tags) = .ok none →
      register_host ec2 r53 env region iid = .ok (.pyList [])) := by
  constructor
  · intro env tags k h1 h2 h3
    simp only [get_hostname, h1, h2, h3]
  · intro ec2 r53 env region iid res inst h1 h2 h3 h4 h5
    simp only [register_host, h1, h2, h3, h4, h5, if_neg, ite_false,
      bind, Except.bind, pure, Except.pure]

/-- C10 witness: both clauses at a concrete tagless instance. -/
theorem register_host_no_hostname_returns_empty_witness :
    get_hostname envNone ([] : Dict TagVal) = .ok none ∧
    register_host ec2NoTags r53Empty envNone "us-east-1" "i-1" =
      .ok (.pyList []) := by
  constructor
  · exact register_host_no_hostname_returns_empty.1 envNone []
      "fn.aws.joshhogle.com/update-route53-host-records/hostname" rfl rfl rfl
  · exact register_host_no_hostname_returns_empty.2 ec2NoTags r53Empty envNone
      "us-east-1" "i-1" ⟨[⟨"", "10.1.2.3", "vpc-1", []⟩]⟩
      ⟨"", "10.1.2.3", "vpc-1", []⟩ rfl rfl (by decide) (by decide) rfl

end R53DDNS
